import Mathlib

/-!
Shallow embedding of `pylibrespot_java/__init__.py` (pylibrespot-java),
a thin client for the librespot-java HTTP API: a command client
(`LibrespotJavaAPI`), a websocket event-listener loop
(`start_websocket_handler`), and a passive data holder
(`LibrespotJavaData`).

Modelling choices:
* Decoded JSON values are an opaque inductive `JVal`.
* The aiohttp websession is a function from requests to responses; a
  response carries its status, content type, and the outcome of parsing
  its body (`Except`, since `resp.json()` can raise).
* Each command method returns, besides its Python return value, the
  unchanged client state, the list of requests it posted, the number of
  body-decode attempts it made, and its debug-log lines.
* The websocket loop is driven by a script of connection attempts.  Each
  attempt either fails to connect with an exception of some kind, or
  connects and yields stream items (a message that decodes and whose
  handler returns; a message whose decode raises; a message whose handler
  raises) followed by a stream end (clean close or receive error).
  Running the script yields the trace of observable actions (connection
  attempts, handler invocations, sleeps) and the exception, if any, that
  escapes the loop.  Exceptions are classified by kind, mirroring
  `except (asyncio.TimeoutError, aiohttp.ClientError)`.
-/

namespace PylibrespotJava

/-- Opaque decoded JSON values. -/
inductive JVal where
  | null : JVal
  | bool : Bool → JVal
  | num : Int → JVal
  | str : String → JVal
  | arr : List JVal → JVal
  | obj : List (String × JVal) → JVal

/-- An outbound HTTP POST request: target URL and optional payload,
as built by `post_request`. -/
structure Request where
  url : String
  data : Option (List (String × JVal))

/-- A server response: numeric status, declared content type, and the
result of parsing the body as JSON (`Except.error` when parsing raises). -/
structure HttpResponse where
  status : Nat
  contentType : Option String
  body : Except String JVal

/-- Source `resp.json(content_type=ct)`: with a declared expected content type the
parse fails on mismatch; with `none` (Python `content_type=None`) the body
is parsed unconditionally. -/
def HttpResponse.jsonDecode (r : HttpResponse) (expected : Option String) :
    Except String JVal :=
  match expected with
  | some t => if r.contentType = some t then r.body else Except.error "unexpected content type"
  | none => r.body

/-- Source `_debug_string` from the source: helper for logger debug strings. -/
def debug_string (string_base : String) (status : Nat) : String :=
  if status = 204 then string_base ++ " No active session"
  else if status = 500 then string_base ++ " Invalid session"
  else if status = 503 then string_base ++ " Session is reconnecting"
  else ""

/-- The client: fields set by `__init__` and never reassigned. -/
structure LibrespotJavaAPI where
  ip_address : String
  api_port : Nat
  websession : Request → HttpResponse

/-- Outcome of one command-method call: the Python return value, the
client state after the call, the requests posted, the number of body
decode attempts, and the debug-log lines emitted. -/
structure CallResult (α : Type) where
  value : α
  state : LibrespotJavaAPI
  posts : List Request
  decodes : Nat
  logs : List String

/-- Source `post_request`: build the POST to `http://{ip}:{port}/{endpoint}`. -/
def LibrespotJavaAPI.post_request (api : LibrespotJavaAPI) (endpoint : String)
    (data : Option (List (String × JVal))) : Request :=
  ⟨"http://" ++ api.ip_address ++ ":" ++ toString api.api_port ++ "/" ++ endpoint, data⟩

/-- Source `player_load`: POST `player/load` with `{"uri": uri, "play": play}`,
return the status. -/
def LibrespotJavaAPI.player_load (api : LibrespotJavaAPI) (uri : String) (play : Bool) :
    CallResult Nat :=
  let req := api.post_request "player/load" (some [("uri", JVal.str uri), ("play", JVal.bool play)])
  let resp := api.websession req
  ⟨resp.status, api, [req], 0,
    if resp.status ∈ [204, 500, 503] then [debug_string "Unable to load track." resp.status] else []⟩

/-- Source `player_pause`: POST `player/pause`, return the status. -/
def LibrespotJavaAPI.player_pause (api : LibrespotJavaAPI) : CallResult Nat :=
  let req := api.post_request "player/pause" none
  let resp := api.websession req
  ⟨resp.status, api, [req], 0,
    if resp.status ∈ [204, 500, 503] then [debug_string "Unable to pause player." resp.status] else []⟩

/-- Source `player_resume`: POST `player/resume`, return the status. -/
def LibrespotJavaAPI.player_resume (api : LibrespotJavaAPI) : CallResult Nat :=
  let req := api.post_request "player/resume" none
  let resp := api.websession req
  ⟨resp.status, api, [req], 0,
    if resp.status ∈ [204, 500, 503] then [debug_string "Unable to resume player." resp.status] else []⟩

/-- Source `player_next`: POST `player/next`, return the status. -/
def LibrespotJavaAPI.player_next (api : LibrespotJavaAPI) : CallResult Nat :=
  let req := api.post_request "player/next" none
  let resp := api.websession req
  ⟨resp.status, api, [req], 0,
    if resp.status ∈ [204, 500, 503] then
      [debug_string "Unable to skip to the next track." resp.status] else []⟩

/-- Source `player_prev`: POST `player/prev`, return the status. -/
def LibrespotJavaAPI.player_prev (api : LibrespotJavaAPI) : CallResult Nat :=
  let req := api.post_request "player/prev" none
  let resp := api.websession req
  ⟨resp.status, api, [req], 0,
    if resp.status ∈ [204, 500, 503] then
      [debug_string "Unable to skip to the previous track." resp.status] else []⟩

/-- Source `player_set_volume`: POST `player/set-volume` with `{"volume": volume}`,
return the status.  The argument is passed through unvalidated. -/
def LibrespotJavaAPI.player_set_volume (api : LibrespotJavaAPI) (volume : Int) :
    CallResult Nat :=
  let req := api.post_request "player/set-volume" (some [("volume", JVal.num volume)])
  let resp := api.websession req
  ⟨resp.status, api, [req], 0,
    if resp.status ∈ [204, 500, 503] then
      [debug_string "Unable to set the volume." resp.status] else []⟩

/-- Source `player_volume_up`: POST `player/volume-up`, return the status. -/
def LibrespotJavaAPI.player_volume_up (api : LibrespotJavaAPI) : CallResult Nat :=
  let req := api.post_request "player/volume-up" none
  let resp := api.websession req
  ⟨resp.status, api, [req], 0,
    if resp.status ∈ [204, 500, 503] then
      [debug_string "Unable to turn the volume up." resp.status] else []⟩

/-- Source `player_volume_down`: POST `player/volume-down`, return the status. -/
def LibrespotJavaAPI.player_volume_down (api : LibrespotJavaAPI) : CallResult Nat :=
  let req := api.post_request "player/volume-down" none
  let resp := api.websession req
  ⟨resp.status, api, [req], 0,
    if resp.status ∈ [204, 500, 503] then
      [debug_string "Unable to turn the volume down." resp.status] else []⟩

/-- Source `player_current`: POST `player/current`, return
`resp.json(content_type=None)`. -/
def LibrespotJavaAPI.player_current (api : LibrespotJavaAPI) :
    CallResult (Except String JVal) :=
  let req := api.post_request "player/current" none
  let resp := api.websession req
  ⟨resp.jsonDecode none, api, [req], 1,
    if resp.status ∈ [204, 500, 503] then
      [debug_string "Unable to retrieve information about the current track." resp.status]
    else []⟩

/-- Source `metadata`: POST `metadata/{uri}`, return `resp.json(content_type=None)`. -/
def LibrespotJavaAPI.metadata (api : LibrespotJavaAPI) (uri : String) :
    CallResult (Except String JVal) :=
  let req := api.post_request ("metadata/" ++ uri) none
  let resp := api.websession req
  ⟨resp.jsonDecode none, api, [req], 1,
    if resp.status ∈ [204, 500, 503] then
      [debug_string ("Unable to get metadata for " ++ uri ++ ".") resp.status] else []⟩

/-- Source `search`: POST `search/{query}`, return `resp.json(content_type=None)`. -/
def LibrespotJavaAPI.search (api : LibrespotJavaAPI) (query : String) :
    CallResult (Except String JVal) :=
  let req := api.post_request ("search/" ++ query) none
  let resp := api.websession req
  ⟨resp.jsonDecode none, api, [req], 1,
    if resp.status ∈ [204, 500, 503] then
      [debug_string ("Unable to search for " ++ query ++ ".") resp.status] else []⟩

/-- Source `token`: POST `token/{scope}`, return `resp.json(content_type=None)`. -/
def LibrespotJavaAPI.token (api : LibrespotJavaAPI) (scope : String) :
    CallResult (Except String JVal) :=
  let req := api.post_request ("token/" ++ scope) none
  let resp := api.websession req
  ⟨resp.jsonDecode none, api, [req], 1,
    if resp.status ∈ [204, 500, 503] then
      [debug_string ("Unable to get token for " ++ scope ++ ".") resp.status] else []⟩

/-- Kind of a raised Python exception, as classified by the listener's
`except (asyncio.TimeoutError, aiohttp.ClientError)` clause: `timeout` is
`asyncio.TimeoutError`, `clientError` is any `aiohttp.ClientError`
subclass, `other` is every other exception type (e.g. a JSON decode
error, or an arbitrary defect raised by the caller's handler). -/
inductive ExcKind where
  | timeout : ExcKind
  | clientError : ExcKind
  | other : ExcKind
deriving DecidableEq

/-- Whether the `except` clause catches an exception of this kind. -/
def isCaught : ExcKind → Bool
  | ExcKind.timeout => true
  | ExcKind.clientError => true
  | ExcKind.other => false

/-- One event received while streaming: the message decodes and the
handler returns; or `msg.json()` raises; or the message decodes but the
handler raises. -/
inductive Item where
  | deliver : JVal → Item
  | decodeFail : ExcKind → Item
  | handlerFail : JVal → ExcKind → Item

/-- How the `async for` over the socket ends once all scripted items are
consumed: clean close, or an exception raised while receiving. -/
inductive StreamEnd where
  | closed : StreamEnd
  | recvError : ExcKind → StreamEnd

/-- One scripted behaviour of `ws_connect`: raise on connect, or connect
and yield the given items then end as described. -/
inductive Attempt where
  | connectFail : ExcKind → Attempt
  | stream : List Item → StreamEnd → Attempt

/-- Observable actions of the listener: a call to `ws_connect url`, an
awaited `update_callback msg` invocation, an `asyncio.sleep t`. -/
inductive Action where
  | connectAttempt : String → Action
  | callback : JVal → Action
  | sleep : ℚ → Action

/-- Run the body of the `async for` loop over the scripted items: handler
invocations performed, and the exception that aborts the loop, if any.
Each invocation is awaited to completion before the next item is
processed, so the resulting action list is totally ordered. -/
def runItems : List Item → List Action × Option ExcKind
  | [] => ([], none)
  | Item.deliver j :: rest =>
      let r := runItems rest
      (Action.callback j :: r.1, r.2)
  | Item.decodeFail e :: _ => ([], some e)
  | Item.handlerFail j e :: _ => ([Action.callback j], some e)

/-- Run one iteration of the `while True` body up to (not including) the
`except` clause: the actions performed and the exception that reaches the
`try`, if any.  On a clean close the `sleep` before re-entering the loop
happens here, inside the `try`. -/
def runAttempt (url : String) (t : ℚ) : Attempt → List Action × Option ExcKind
  | Attempt.connectFail e => ([Action.connectAttempt url], some e)
  | Attempt.stream items endw =>
      let r := runItems items
      match r.2 with
      | some e => (Action.connectAttempt url :: r.1, some e)
      | none =>
          match endw with
          | StreamEnd.recvError e => (Action.connectAttempt url :: r.1, some e)
          | StreamEnd.closed =>
              (Action.connectAttempt url :: (r.1 ++ [Action.sleep t]), none)

/-- The `while True` loop with its `try`/`except`: a caught exception is
followed by `asyncio.sleep t` and `continue`; an uncaught one escapes the
coroutine and the loop makes no further attempt.  The script is the
finite prefix of connection behaviours under consideration; a result of
`none` means the loop is still running after consuming it. -/
def runLoop (url : String) (t : ℚ) : List Attempt → List Action × Option ExcKind
  | [] => ([], none)
  | a :: rest =>
      let r := runAttempt url t a
      match r.2 with
      | none =>
          let r2 := runLoop url t rest
          (r.1 ++ r2.1, r2.2)
      | some e =>
          if isCaught e then
            let r2 := runLoop url t rest
            (r.1 ++ Action.sleep t :: r2.1, r2.2)
          else
            (r.1, some e)

/-- The events URL built by `start_websocket_handler`. -/
def events_url (api : LibrespotJavaAPI) : String :=
  "http://" ++ api.ip_address ++ ":" ++ toString api.api_port ++ "/events"

/-- Source `start_websocket_handler`: run the reconnect loop against the events
endpoint of this client, under the scripted connection behaviours. -/
def LibrespotJavaAPI.start_websocket_handler (api : LibrespotJavaAPI)
    (websocket_reconnect_time : ℚ) (script : List Attempt) :
    List Action × Option ExcKind :=
  runLoop (events_url api) websocket_reconnect_time script

/-- Number of connection attempts in a trace. -/
def countConnects : List Action → Nat
  | [] => 0
  | Action.connectAttempt _ :: rest => countConnects rest + 1
  | _ :: rest => countConnects rest

/-- Number of handler invocations in a trace. -/
def countCallbacks : List Action → Nat
  | [] => 0
  | Action.callback _ :: rest => countCallbacks rest + 1
  | _ :: rest => countCallbacks rest

/-- Every connection attempt in the trace targets the given URL. -/
def connectsAllTo (u : String) : List Action → Bool
  | [] => true
  | Action.connectAttempt v :: rest => v = u && connectsAllTo u rest
  | _ :: rest => connectsAllTo u rest

/-- Source `LibrespotJavaData`: passive holder for player status, volume and
track info. -/
structure LibrespotJavaData where
  player_status : Option JVal
  volume : Option JVal
  track_info : Option JVal

/-- Source `LibrespotJavaData.__init__`: all three fields start absent. -/
def LibrespotJavaData.init : LibrespotJavaData :=
  ⟨none, none, none⟩

/-- The `name` property getter. -/
def LibrespotJavaData.name (_ : LibrespotJavaData) : String :=
  "librespot-java"

/-- The `player_status` property setter. -/
def LibrespotJavaData.set_player_status (d : LibrespotJavaData) (v : Option JVal) :
    LibrespotJavaData :=
  ⟨v, d.volume, d.track_info⟩

/-- The `volume` property setter. -/
def LibrespotJavaData.set_volume (d : LibrespotJavaData) (v : Option JVal) :
    LibrespotJavaData :=
  ⟨d.player_status, v, d.track_info⟩

/-- The `track_info` property setter. -/
def LibrespotJavaData.set_track_info (d : LibrespotJavaData) (v : Option JVal) :
    LibrespotJavaData :=
  ⟨d.player_status, d.volume, v⟩

/-- A client whose websession answers every request with the same
response: status `status`, content type `ct`, body-parse outcome `body`. -/
def mkClient (ip : String) (port : Nat) (status : Nat) (ct : Option String)
    (body : Except String JVal) : LibrespotJavaAPI :=
  ⟨ip, port, fun _ => ⟨status, ct, body⟩⟩

lemma append_lit (x a b c : String) (h : a ++ b = c) : (x ++ a) ++ b = x ++ c := by
  rw [String.append_assoc, h]

lemma append_lit_assoc (x a b c u : String) (h : a ++ b = c) :
    (x ++ a) ++ (b ++ u) = (x ++ c) ++ u := by
  rw [← String.append_assoc, String.append_assoc x, h]

/-- C4: every write-type command (`player_load`, `player_pause`,
`player_resume`, `player_next`, `player_prev`, `player_set_volume`,
`player_volume_up`, `player_volume_down`) returns exactly the numeric
status the server responded with — soft-failure statuses 204/500/503
included, since the `if resp.status in [204, 500, 503]` branch only logs —
and attempts no body decode, so no decode error can be raised. -/
theorem write_commands_return_status_unchanged (ip : String) (port : Nat)
    (S : Nat) (ct : Option String) (body : Except String JVal)
    (uri : String) (play : Bool) (v : Int) :
    (((mkClient ip port S ct body).player_load uri play).value = S
      ∧ ((mkClient ip port S ct body).player_load uri play).decodes = 0)
    ∧ (((mkClient ip port S ct body).player_pause).value = S
      ∧ ((mkClient ip port S ct body).player_pause).decodes = 0)
    ∧ (((mkClient ip port S ct body).player_resume).value = S
      ∧ ((mkClient ip port S ct body).player_resume).decodes = 0)
    ∧ (((mkClient ip port S ct body).player_next).value = S
      ∧ ((mkClient ip port S ct body).player_next).decodes = 0)
    ∧ (((mkClient ip port S ct body).player_prev).value = S
      ∧ ((mkClient ip port S ct body).player_prev).decodes = 0)
    ∧ (((mkClient ip port S ct body).player_set_volume v).value = S
      ∧ ((mkClient ip port S ct body).player_set_volume v).decodes = 0)
    ∧ (((mkClient ip port S ct body).player_volume_up).value = S
      ∧ ((mkClient ip port S ct body).player_volume_up).decodes = 0)
    ∧ (((mkClient ip port S ct body).player_volume_down).value = S
      ∧ ((mkClient ip port S ct body).player_volume_down).decodes = 0) :=
  ⟨⟨rfl, rfl⟩, ⟨rfl, rfl⟩, ⟨rfl, rfl⟩, ⟨rfl, rfl⟩, ⟨rfl, rfl⟩, ⟨rfl, rfl⟩,
    ⟨rfl, rfl⟩, ⟨rfl, rfl⟩⟩

/-- C5: every read-type command (`player_current`, `metadata`, `search`,
`token`) returns the outcome of decoding the body, for every status —
soft-failure statuses included — and for every declared content type,
since decoding passes `content_type=None`; decoding is attempted exactly
once per call, and a decode failure is returned as the propagated
outcome, not handled specially. -/
theorem read_commands_return_decoded_body (ip : String) (port : Nat)
    (S : Nat) (ct : Option String) (body : Except String JVal)
    (uri query scope : String) :
    (((mkClient ip port S ct body).player_current).value = body
      ∧ ((mkClient ip port S ct body).player_current).decodes = 1)
    ∧ (((mkClient ip port S ct body).metadata uri).value = body
      ∧ ((mkClient ip port S ct body).metadata uri).decodes = 1)
    ∧ (((mkClient ip port S ct body).search query).value = body
      ∧ ((mkClient ip port S ct body).search query).decodes = 1)
    ∧ (((mkClient ip port S ct body).token scope).value = body
      ∧ ((mkClient ip port S ct body).token scope).decodes = 1) :=
  ⟨⟨rfl, rfl⟩, ⟨rfl, rfl⟩, ⟨rfl, rfl⟩, ⟨rfl, rfl⟩⟩

/-- C6: for every integer volume `v` — out-of-range values such as 70000
included — `player_set_volume v` posts exactly one request, to
`player/set-volume`, with the payload `volume := v` passed through
unmodified (no clamping or validation), and returns whatever status the
server responded with. -/
theorem set_volume_passes_through_unclamped (ip : String) (port : Nat)
    (S : Nat) (ct : Option String) (body : Except String JVal) (v : Int) :
    ((mkClient ip port S ct body).player_set_volume v).posts
      = [⟨"http://" ++ ip ++ ":" ++ toString port ++ "/player/set-volume",
          some [("volume", JVal.num v)]⟩]
    ∧ ((mkClient ip port S ct body).player_set_volume v).value = S := by
  constructor
  · show [(⟨("http://" ++ ip ++ ":" ++ toString port ++ "/") ++ "player/set-volume",
      some [("volume", JVal.num v)]⟩ : Request)] = _
    rw [append_lit ("http://" ++ ip ++ ":" ++ toString port) "/" "player/set-volume"
      "/player/set-volume" rfl]
  · rfl

/-- C7: for every uri `u` and boolean `p`, `player_load u p` posts exactly
one request, to `http://{host}:{port}/player/load`, carrying the payload
`uri := u, play := p`, and returns the raw numeric status the server
responded with. -/
theorem load_posts_one_request (ip : String) (port : Nat)
    (S : Nat) (ct : Option String) (body : Except String JVal)
    (u : String) (p : Bool) :
    ((mkClient ip port S ct body).player_load u p).posts
      = [⟨"http://" ++ ip ++ ":" ++ toString port ++ "/player/load",
          some [("uri", JVal.str u), ("play", JVal.bool p)]⟩]
    ∧ ((mkClient ip port S ct body).player_load u p).value = S := by
  constructor
  · show [(⟨("http://" ++ ip ++ ":" ++ toString port ++ "/") ++ "player/load",
      some [("uri", JVal.str u), ("play", JVal.bool p)]⟩ : Request)] = _
    rw [append_lit ("http://" ++ ip ++ ":" ++ toString port) "/" "player/load"
      "/player/load" rfl]
  · rfl

/-- C8: `metadata s`, `search s` and `token s` interpolate the string
argument verbatim — unescaped and untransformed — into the endpoint
path, posting to `.../metadata/{s}`, `.../search/{s}` and `.../token/{s}`
respectively. -/
theorem path_segments_inserted_verbatim (ip : String) (port : Nat)
    (S : Nat) (ct : Option String) (body : Except String JVal) (s : String) :
    ((mkClient ip port S ct body).metadata s).posts
      = [⟨("http://" ++ ip ++ ":" ++ toString port ++ "/metadata/") ++ s, none⟩]
    ∧ ((mkClient ip port S ct body).search s).posts
      = [⟨("http://" ++ ip ++ ":" ++ toString port ++ "/search/") ++ s, none⟩]
    ∧ ((mkClient ip port S ct body).token s).posts
      = [⟨("http://" ++ ip ++ ":" ++ toString port ++ "/token/") ++ s, none⟩] := by
  refine ⟨?_, ?_, ?_⟩
  · show [(⟨("http://" ++ ip ++ ":" ++ toString port ++ "/") ++ ("metadata/" ++ s),
      none⟩ : Request)] = _
    rw [append_lit_assoc ("http://" ++ ip ++ ":" ++ toString port) "/" "metadata/"
      "/metadata/" s rfl]
  · show [(⟨("http://" ++ ip ++ ":" ++ toString port ++ "/") ++ ("search/" ++ s),
      none⟩ : Request)] = _
    rw [append_lit_assoc ("http://" ++ ip ++ ":" ++ toString port) "/" "search/"
      "/search/" s rfl]
  · show [(⟨("http://" ++ ip ++ ":" ++ toString port ++ "/") ++ ("token/" ++ s),
      none⟩ : Request)] = _
    rw [append_lit_assoc ("http://" ++ ip ++ ":" ++ toString port) "/" "token/"
      "/token/" s rfl]

/-- C10: `LibrespotJavaData` starts with all three fields absent; each
setter assigns only its own field and leaves the other two unchanged; the
`name` getter returns the constant string, whatever the state. -/
theorem data_holder_frame_conditions :
    (LibrespotJavaData.init.player_status = none
      ∧ LibrespotJavaData.init.volume = none
      ∧ LibrespotJavaData.init.track_info = none)
    ∧ (∀ (d : LibrespotJavaData) (v : Option JVal),
        (d.set_player_status v).player_status = v
          ∧ (d.set_player_status v).volume = d.volume
          ∧ (d.set_player_status v).track_info = d.track_info)
    ∧ (∀ (d : LibrespotJavaData) (v : Option JVal),
        (d.set_volume v).volume = v
          ∧ (d.set_volume v).player_status = d.player_status
          ∧ (d.set_volume v).track_info = d.track_info)
    ∧ (∀ (d : LibrespotJavaData) (v : Option JVal),
        (d.set_track_info v).track_info = v
          ∧ (d.set_track_info v).player_status = d.player_status
          ∧ (d.set_track_info v).volume = d.volume)
    ∧ (∀ d : LibrespotJavaData, d.name = "librespot-java") :=
  ⟨⟨rfl, rfl, rfl⟩, fun _ _ => ⟨rfl, rfl, rfl⟩, fun _ _ => ⟨rfl, rfl, rfl⟩,
    fun _ _ => ⟨rfl, rfl, rfl⟩, fun _ => rfl⟩

lemma countCallbacks_append (l1 l2 : List Action) :
    countCallbacks (l1 ++ l2) = countCallbacks l1 + countCallbacks l2 := by
  induction l1 with
  | nil => simp [countCallbacks]
  | cons a l ih =>
      cases a <;> simp [countCallbacks, ih]
      omega

lemma countConnects_append (l1 l2 : List Action) :
    countConnects (l1 ++ l2) = countConnects l1 + countConnects l2 := by
  induction l1 with
  | nil => simp [countConnects]
  | cons a l ih =>
      cases a <;> simp [countConnects, ih]
      omega

lemma countCallbacks_retry_join (u : String) (t : ℚ) (N : Nat) :
    countCallbacks (List.replicate N [Action.connectAttempt u, Action.sleep t]).flatten = 0 := by
  induction N with
  | zero => rfl
  | succ n ih =>
      simp [List.replicate_succ, countCallbacks_append, ih, countCallbacks]

lemma countConnects_retry_join (u : String) (t : ℚ) (N : Nat) :
    countConnects (List.replicate N [Action.connectAttempt u, Action.sleep t]).flatten = N := by
  induction N with
  | zero => rfl
  | succ n ih =>
      simp [List.replicate_succ, countConnects_append, ih, countConnects]

lemma runAttempt_head (u : String) (t : ℚ) (a : Attempt) :
    ∃ tl, (runAttempt u t a).1 = Action.connectAttempt u :: tl := by
  cases a with
  | connectFail e => exact ⟨[], rfl⟩
  | stream items endw =>
      simp only [runAttempt]
      cases (runItems items).2 with
      | some e => exact ⟨(runItems items).1, rfl⟩
      | none =>
          cases endw with
          | closed => exact ⟨(runItems items).1 ++ [Action.sleep t], rfl⟩
          | recvError e => exact ⟨(runItems items).1, rfl⟩

lemma runLoop_cons_head (u : String) (t : ℚ) (a : Attempt) (rest : List Attempt) :
    ∃ tl, (runLoop u t (a :: rest)).1 = Action.connectAttempt u :: tl := by
  obtain ⟨tl, htl⟩ := runAttempt_head u t a
  simp only [runLoop]
  cases (runAttempt u t a).2 with
  | none => exact ⟨tl ++ (runLoop u t rest).1, by rw [htl]; rfl⟩
  | some e =>
      by_cases hc : isCaught e = true
      · simp only [hc, if_true]
        exact ⟨tl ++ Action.sleep t :: (runLoop u t rest).1, by rw [htl]; rfl⟩
      · simp only [Bool.not_eq_true] at hc
        simp only [hc]
        exact ⟨tl, htl⟩

lemma runLoop_replicate_connectFail (u : String) (t : ℚ) (e : ExcKind)
    (he : isCaught e = true) (N : Nat) (rest : List Attempt) :
    runLoop u t (List.replicate N (Attempt.connectFail e) ++ rest)
      = ((List.replicate N [Action.connectAttempt u, Action.sleep t]).flatten
          ++ (runLoop u t rest).1, (runLoop u t rest).2) := by
  induction N with
  | zero => simp
  | succ n ih =>
      simp only [List.replicate_succ, List.cons_append, List.flatten_cons, runLoop,
        runAttempt, he, if_true]
      simp [ih]

lemma connectsAllTo_append (u : String) (l1 l2 : List Action) :
    connectsAllTo u (l1 ++ l2) = (connectsAllTo u l1 && connectsAllTo u l2) := by
  induction l1 with
  | nil => simp [connectsAllTo]
  | cons a l ih => cases a <;> simp [connectsAllTo, ih, Bool.and_assoc]

lemma runItems_connectsAllTo (u : String) (items : List Item) :
    connectsAllTo u (runItems items).1 = true := by
  induction items with
  | nil => rfl
  | cons it rest ih => cases it <;> simp [runItems, connectsAllTo, ih]

lemma runAttempt_connectsAllTo (u : String) (t : ℚ) (a : Attempt) :
    connectsAllTo u (runAttempt u t a).1 = true := by
  cases a with
  | connectFail e => simp [runAttempt, connectsAllTo]
  | stream items endw =>
      simp only [runAttempt]
      cases (runItems items).2 with
      | some e => simp [connectsAllTo, runItems_connectsAllTo]
      | none =>
          cases endw with
          | closed =>
              simp [connectsAllTo, connectsAllTo_append, runItems_connectsAllTo]
          | recvError e => simp [connectsAllTo, runItems_connectsAllTo]

lemma runLoop_connectsAllTo (u : String) (t : ℚ) (script : List Attempt) :
    connectsAllTo u (runLoop u t script).1 = true := by
  induction script with
  | nil => rfl
  | cons a rest ih =>
      simp only [runLoop]
      cases (runAttempt u t a).2 with
      | none => simp [connectsAllTo_append, runAttempt_connectsAllTo, ih]
      | some e =>
          by_cases hc : isCaught e = true
          · simp [hc, connectsAllTo_append, runAttempt_connectsAllTo, connectsAllTo, ih]
          · simp only [Bool.not_eq_true] at hc
            simp [hc, runAttempt_connectsAllTo]

/-- C1: within the listener's `try`, only a raised exception of kind
timeout or client error — wherever it arose in the connect-and-stream
block — triggers the sleep-and-reconnect path; an exception of any other
kind (a message-decode failure, a defect inside the caller's handler)
escapes the loop, terminating it with no further connection attempt. -/
theorem listener_fatal_vs_retry (api : LibrespotJavaAPI) (t : ℚ) (a : Attempt)
    (rest : List Attempt) (tr : List Action) (e : ExcKind)
    (h : runAttempt (events_url api) t a = (tr, some e)) :
    (isCaught e = true →
        api.start_websocket_handler t (a :: rest)
          = (tr ++ Action.sleep t :: (runLoop (events_url api) t rest).1,
             (runLoop (events_url api) t rest).2))
    ∧ (isCaught e = false →
        api.start_websocket_handler t (a :: rest) = (tr, some e)
          ∧ countConnects (api.start_websocket_handler t (a :: rest)).1
              = countConnects tr)
    ∧ (isCaught e = true ↔ (e = ExcKind.timeout ∨ e = ExcKind.clientError)) := by
  refine ⟨fun hc => ?_, fun hc => ?_, ?_⟩
  · simp [LibrespotJavaAPI.start_websocket_handler, runLoop, h, hc]
  · refine ⟨?_, ?_⟩ <;>
      simp [LibrespotJavaAPI.start_websocket_handler, runLoop, h, hc]
  · cases e <;> simp [isCaught]

/-- Witness for C1: a handler defect (kind `other`) on the first message
terminates the listener; the scripted second attempt is never made. -/
theorem listener_fatal_vs_retry_witness :
    runAttempt (events_url ⟨"h", 1, fun _ => ⟨200, none, Except.ok JVal.null⟩⟩) 2
        (Attempt.stream [Item.handlerFail JVal.null ExcKind.other] StreamEnd.closed)
      = ([Action.connectAttempt "http://h:1/events", Action.callback JVal.null],
         some ExcKind.other)
    ∧ isCaught ExcKind.other = false
    ∧ (⟨"h", 1, fun _ => ⟨200, none, Except.ok JVal.null⟩⟩
          : LibrespotJavaAPI).start_websocket_handler 2
        [Attempt.stream [Item.handlerFail JVal.null ExcKind.other] StreamEnd.closed,
         Attempt.connectFail ExcKind.timeout]
      = ([Action.connectAttempt "http://h:1/events", Action.callback JVal.null],
         some ExcKind.other) :=
  ⟨rfl, rfl,
    ((listener_fatal_vs_retry ⟨"h", 1, fun _ => ⟨200, none, Except.ok JVal.null⟩⟩ 2
        (Attempt.stream [Item.handlerFail JVal.null ExcKind.other] StreamEnd.closed)
        [Attempt.connectFail ExcKind.timeout]
        [Action.connectAttempt "http://h:1/events", Action.callback JVal.null]
        ExcKind.other rfl).2.1 rfl).1⟩

/-- C2: after `N` consecutive connection failures of caught kind (timeout
or client error) followed by a connecting attempt, the trace of the first
`N` attempts is exactly `N` repetitions of connect-then-sleep, each sleep
of the same configured duration `t` (no backoff, no retry cap — the
equation holds for every `N`); the `N+1`th attempt is the streaming one,
and the handler is invoked zero times during the failed attempts. -/
theorem listener_reconnect_constant_interval (api : LibrespotJavaAPI) (t : ℚ)
    (N : Nat) (e : ExcKind) (he : isCaught e = true)
    (items : List Item) (endw : StreamEnd) :
    api.start_websocket_handler t
        (List.replicate N (Attempt.connectFail e) ++ [Attempt.stream items endw])
      = ((List.replicate N [Action.connectAttempt (events_url api),
            Action.sleep t]).flatten
          ++ (runLoop (events_url api) t [Attempt.stream items endw]).1,
         (runLoop (events_url api) t [Attempt.stream items endw]).2)
    ∧ countCallbacks ((List.replicate N [Action.connectAttempt (events_url api),
        Action.sleep t]).flatten) = 0
    ∧ countConnects ((List.replicate N [Action.connectAttempt (events_url api),
        Action.sleep t]).flatten) = N :=
  ⟨runLoop_replicate_connectFail _ t e he N _,
   countCallbacks_retry_join _ t N, countConnects_retry_join _ t N⟩

/-- Witness for C2: two timeouts then a successful connect, with interval
5: the trace is connect, sleep 5, connect, sleep 5, then the streaming
attempt delivering the message; no handler call before it. -/
theorem listener_reconnect_constant_interval_witness :
    isCaught ExcKind.timeout = true
    ∧ (⟨"h", 1, fun _ => ⟨200, none, Except.ok JVal.null⟩⟩
          : LibrespotJavaAPI).start_websocket_handler 5
        (List.replicate 2 (Attempt.connectFail ExcKind.timeout)
          ++ [Attempt.stream [Item.deliver JVal.null] StreamEnd.closed])
      = ([Action.connectAttempt "http://h:1/events", Action.sleep 5,
          Action.connectAttempt "http://h:1/events", Action.sleep 5,
          Action.connectAttempt "http://h:1/events", Action.callback JVal.null,
          Action.sleep 5], none) :=
  ⟨rfl,
    (listener_reconnect_constant_interval
        ⟨"h", 1, fun _ => ⟨200, none, Except.ok JVal.null⟩⟩ 5 2 ExcKind.timeout rfl
        [Item.deliver JVal.null] StreamEnd.closed).1⟩

/-- C3: a stream that connects, delivers `m1` then `m2`, and closes
cleanly produces exactly one awaited handler invocation per message, in
order, in a totally ordered trace (invocations cannot overlap), followed
by a sleep of the configured interval, followed by a new connection
attempt — the continuation's trace begins with one. -/
theorem listener_delivers_in_order_then_reconnects (api : LibrespotJavaAPI)
    (t : ℚ) (m1 m2 : JVal) (a : Attempt) (rest : List Attempt) :
    api.start_websocket_handler t
        (Attempt.stream [Item.deliver m1, Item.deliver m2] StreamEnd.closed
          :: a :: rest)
      = (Action.connectAttempt (events_url api) :: Action.callback m1
          :: Action.callback m2 :: Action.sleep t
          :: (runLoop (events_url api) t (a :: rest)).1,
         (runLoop (events_url api) t (a :: rest)).2)
    ∧ ∃ tl, (runLoop (events_url api) t (a :: rest)).1
        = Action.connectAttempt (events_url api) :: tl := by
  constructor
  · simp [LibrespotJavaAPI.start_websocket_handler, runLoop, runAttempt, runItems]
  · exact runLoop_cons_head _ _ _ _

/-- C9: every command method returns the client state unchanged — host,
port and websession exactly as set by `__init__` — and the listener loop
directs every one of its connection attempts at the URL built from that
same fixed host and port. -/
theorem client_connection_target_immutable (api : LibrespotJavaAPI)
    (uri query scope : String) (play : Bool) (v : Int) (t : ℚ)
    (script : List Attempt) :
    (api.player_load uri play).state = api
    ∧ (api.player_pause).state = api
    ∧ (api.player_resume).state = api
    ∧ (api.player_next).state = api
    ∧ (api.player_prev).state = api
    ∧ (api.player_set_volume v).state = api
    ∧ (api.player_volume_up).state = api
    ∧ (api.player_volume_down).state = api
    ∧ (api.player_current).state = api
    ∧ (api.metadata uri).state = api
    ∧ (api.search query).state = api
    ∧ (api.token scope).state = api
    ∧ connectsAllTo (events_url api) (api.start_websocket_handler t script).1
        = true :=
  ⟨rfl, rfl, rfl, rfl, rfl, rfl, rfl, rfl, rfl, rfl, rfl, rfl,
    runLoop_connectsAllTo _ _ _⟩

end PylibrespotJava
